import Mathlib

/-!
Verification of the buffer-overrun test corpus
(`tests/codetoanalyze/c/bufferoverrun/{arith.c, issue_kinds.c, models.c}`).

The corpus consists of small C functions whose array accesses are either in
bounds or out of bounds; the claims under check are concrete-semantics facts
about these functions. We embed each relevant C function shallowly:

* C `int` values are `Int`; where twos-complement wraparound matters it is
  applied explicitly via `wrap32`. C signed `%` truncates toward zero, which
  is exactly `Int.tmod`. C `unsigned int` values are `Nat` and unsigned `%`
  is `Nat.mod`.
* A C store `arr[i] = v` into an array of `size` elements is in bounds iff
  `0 ≤ i < size`; `storeOK size i` is that check. A function whose only
  observable behaviour is such stores is embedded as a `Bool`-valued function
  returning whether every store it performs is in bounds.
* `memcpy`/`memset` are modelled at byte granularity on the byte lists of the
  buffers, returning `none` when the length overruns either buffer.
-/

namespace BufferOverrun

/-- Bounds check of a C store `arr[i] = v` into an array of `size` elements:
in bounds iff `0 ≤ i < size`. -/
def storeOK (size i : Int) : Bool := decide (0 ≤ i) && decide (i < size)

/-- Embedding of `int modulo_signed(int a, int b) { return a % b; }` (arith.c:70).
C signed `%` truncates toward zero: `Int.tmod`. -/
def modulo_signed (a b : Int) : Int := Int.tmod a b

/-- Embedding of `void modulo_signed_Bad(int i) { char arr[5]; arr[i % 5] = 123; }`
(arith.c:11-14). Returns whether the single store is in bounds. -/
def modulo_signed_Bad (i : Int) : Bool := storeOK 5 (Int.tmod i 5)

/-- Embedding of `unsigned int modulo_unsigned(unsigned int a, unsigned int b)`
(arith.c:63). -/
def modulo_unsigned (a b : Nat) : Nat := a % b

/-- Embedding of `void modulo_unsigned_Good(unsigned int i) { char arr[5]; arr[i % 5] = 123; }`
(arith.c:43-46). -/
def modulo_unsigned_Good (i : Nat) : Bool := storeOK 5 ((i % 5 : Nat) : Int)

/-- Embedding of `void modulo_unsigned_var_Good(unsigned int len, unsigned int i)
{ char arr[len]; arr[i % len] = 123; }` (arith.c:58-61). -/
def modulo_unsigned_var_Good (len i : Nat) : Bool :=
  storeOK (len : Int) ((i % len : Nat) : Int)

/-- Embedding of `void l1_concrete_overrun_Bad() { int a[10]; a[10] = 0; }`
(issue_kinds.c:10-13). -/
def l1_concrete_overrun_Bad : Bool := storeOK 10 10

/-- Embedding of `void l1_concrete_underrun_Bad() { int a[10]; a[-1] = 0; }`
(issue_kinds.c:15-18). -/
def l1_concrete_underrun_Bad : Bool := storeOK 10 (-1)

/-- Embedding of `int zero_or_ten(int ten) { if (ten) { return 10; } else { return 0; } }`
(issue_kinds.c:34-40). A C condition holds iff the value is nonzero. -/
def zero_or_ten (ten : Int) : Int := if ten ≠ 0 then 10 else 0

/-- The size argument `zero_or_ten(0) - 5` of the `malloc` call in
`void alloc_may_be_negative_Bad() { malloc(zero_or_ten(0) - 5); }`
(issue_kinds.c:148), in `int` arithmetic. -/
def alloc_may_be_negative_Bad_size : Int := zero_or_ten 0 - 5

/-- Embedding of `void l2_symbolic_no_overrun_Good(int n) { int a[n]; if (n > 0) { a[n - 1] = 0; } }`
(issue_kinds.c:67-72): the guarded store is performed only when `n > 0`. -/
def l2_symbolic_no_overrun_Good (n : Int) : Bool :=
  if 0 < n then storeOK n (n - 1) else true

/-- Embedding of `void may_underrun_symbolic_Nowarn_Good(int n) { int a[n]; a[n - 1] = 0; }`
(issue_kinds.c:131-134): the same store with no guard. -/
def may_underrun_symbolic_Nowarn_Good (n : Int) : Bool := storeOK n (n - 1)

/-- The loop `for (int i = 0; i < bound; i++) r++;` of `zero_to_infty`,
run from counter `i` and accumulator `r`. -/
def countUpFrom (i bound r : Int) : Int :=
  if i < bound then countUpFrom (i + 1) bound (r + 1) else r
termination_by (bound - i).toNat
decreasing_by omega

/-- Embedding of `int zero_to_infty() { int r = 0; for (int i = 0; i < zero_or_ten(0); i++)
{ r++; } return r; }` (issue_kinds.c:172-178). -/
def zero_to_infty : Int := countUpFrom 0 (zero_or_ten 0) 0

/-- Twos-complement wraparound of a mathematical integer into the signed
32-bit range `[-2^31, 2^31)`. -/
def wrap32 (x : Int) : Int := (x + 2 ^ 31) % 2 ^ 32 - 2 ^ 31

/-- The size expression `2 * 1000 * 1000 * 1000` of
`void alloc_is_big_Bad() { malloc(2 * 1000 * 1000 * 1000); }`
(issue_kinds.c:154), evaluated left-associatively with each intermediate
`int` result wrapped to signed 32 bits. -/
def alloc_is_big_Bad_size : Int := wrap32 (wrap32 (wrap32 (2 * 1000) * 1000) * 1000)

/-- Embedding of `int plus_linear_min(int i)` (arith.c:88-94):
`int linear = i + 1; if (i >= 0 && i < 10) { return linear + i; } return 0;`. -/
def plus_linear_min (i : Int) : Int :=
  let linear := i + 1
  if 0 ≤ i ∧ i < 10 then linear + i else 0

/-- Embedding of `void plus_linear_min_Good() { int a[20]; a[plus_linear_min(9)] = 1; }`
(arith.c:96-99). -/
def plus_linear_min_Good : Bool := storeOK 20 (plus_linear_min 9)

/-- Embedding of `void plus_linear_min_Bad() { int a[19]; a[plus_linear_min(9)] = 1; }`
(arith.c:101-104). -/
def plus_linear_min_Bad : Bool := storeOK 19 (plus_linear_min 9)

/-- Embedding of `memcpy(dst, src, n)` at byte granularity on the byte lists of the two
buffers: bytes `0..n-1` of `src` replace bytes `0..n-1` of `dst`; `none`
when `n` overruns either buffer. -/
def memcpy (dst src : List Int) (n : Nat) : Option (List Int) :=
  if n ≤ dst.length ∧ n ≤ src.length then some (src.take n ++ dst.drop n) else none

/-- Embedding of `memset(dst, c, n)` at byte granularity: bytes `0..n-1` of `dst` are set
to `c`; `none` when `n` overruns the buffer. -/
def memset (dst : List Int) (c : Int) (n : Nat) : Option (List Int) :=
  if n ≤ dst.length then some (List.replicate n c ++ dst.drop n) else none

/-- The byte offsets a bulk copy or fill of length `n` touches in each of the
buffers involved. -/
def bulkOffsets (n : Nat) : List Nat := List.range n

/-- Embedding of `void memcpy_bad1() { int arr1[10]; int arr2[20]; memcpy(arr1, arr2, 44); }`
(models.c:51-55), on the byte lists of the two arrays (40 resp. 80 bytes). -/
def memcpy_bad1 (arr1 arr2 : List Int) : Option (List Int) := memcpy arr1 arr2 44

/-- Embedding of `void memcpy_good2() { int arr1[10]; int arr2[20]; memcpy(arr2, arr1, 0); }`
(models.c:82-86), on the byte lists of the two arrays. -/
def memcpy_good2 (arr1 arr2 : List Int) : Option (List Int) := memcpy arr2 arr1 0

/-- Embedding of `void memset_good2() { int arr[10]; memset(arr, 0, 0); }`
(models.c:185-188), on the byte list of the array. -/
def memset_good2 (arr : List Int) : Option (List Int) := memset arr 0 0

/-- The truncated remainder by 5 of any integer lies in `[-4, 4]`. -/
theorem tmod_five_bounds (i : Int) : -4 ≤ Int.tmod i 5 ∧ Int.tmod i 5 ≤ 4 := by
  cases i with
  | ofNat m =>
      have h : m % 5 < 5 := Nat.mod_lt _ (by norm_num)
      constructor <;> simp [Int.tmod] <;> omega
  | negSucc m =>
      have h : (m + 1) % 5 < 5 := Nat.mod_lt _ (by norm_num)
      constructor <;> simp [Int.tmod] <;> omega

/-- C1: for every signed 32-bit integer `i`, the C expression `i % 5` lies in
`[-4, 4]`; for some negative `i` in range the value is strictly negative; and
for some `i` in range the store `arr[i % 5]` into `char arr[5]` in
`modulo_signed_Bad` is out of bounds. -/
theorem modulo_signed_Bad_out_of_bounds (i : Int)
    (h : -2 ^ 31 ≤ i ∧ i < 2 ^ 31) :
    (-4 ≤ modulo_signed i 5 ∧ modulo_signed i 5 ≤ 4) ∧
    (∃ j : Int, -2 ^ 31 ≤ j ∧ j < 2 ^ 31 ∧ j < 0 ∧ modulo_signed j 5 < 0) ∧
    (∃ j : Int, -2 ^ 31 ≤ j ∧ j < 2 ^ 31 ∧ modulo_signed_Bad j = false) := by
  refine ⟨tmod_five_bounds i, ⟨-1, by decide⟩, ⟨-1, by decide⟩⟩

/-- Witness for C1 at `i = 7`. -/
theorem modulo_signed_Bad_out_of_bounds_witness :
    (-4 ≤ modulo_signed 7 5 ∧ modulo_signed 7 5 ≤ 4) ∧
    (∃ j : Int, -2 ^ 31 ≤ j ∧ j < 2 ^ 31 ∧ j < 0 ∧ modulo_signed j 5 < 0) ∧
    (∃ j : Int, -2 ^ 31 ≤ j ∧ j < 2 ^ 31 ∧ modulo_signed_Bad j = false) :=
  modulo_signed_Bad_out_of_bounds 7 (by decide)

/-- C2: `l1_concrete_overrun_Bad` writes `a[10]` into `int a[10]`, violating
`index < size`; `l1_concrete_underrun_Bad` writes `a[-1]`, violating
`0 ≤ index`. Both functions take no input, so each violation holds on the
(unique) execution. -/
theorem l1_concrete_violations :
    l1_concrete_overrun_Bad = false ∧ ¬((10 : Int) < 10) ∧ (0 : Int) ≤ 10 ∧
    l1_concrete_underrun_Bad = false ∧ ¬((0 : Int) ≤ -1) ∧ (-1 : Int) < 10 := by
  decide

/-- C3: in `memcpy_bad1` the length 44 exceeds the 40-byte destination
`int arr1[10]`, so the copy fails the bounds check, touches a byte offset at
or past the destination end, and satisfies the flagging condition
`44 > destination size`. -/
theorem memcpy_bad1_overrun (arr1 arr2 : List Int)
    (h1 : arr1.length = 40) (h2 : arr2.length = 80) :
    memcpy_bad1 arr1 arr2 = none ∧
    (∃ j ∈ bulkOffsets 44, arr1.length ≤ j) ∧ 44 > arr1.length := by
  refine ⟨?_, ⟨40, ?_, ?_⟩, ?_⟩
  · simp [memcpy_bad1, memcpy, h1, h2]
  · simp [bulkOffsets]
  · omega
  · omega

/-- Witness for C3 at concrete 40- and 80-byte buffers. -/
theorem memcpy_bad1_overrun_witness :
    memcpy_bad1 (List.replicate 40 0) (List.replicate 80 0) = none ∧
    (∃ j ∈ bulkOffsets 44, (List.replicate 40 (0 : Int)).length ≤ j) ∧
    44 > (List.replicate 40 (0 : Int)).length :=
  memcpy_bad1_overrun (List.replicate 40 0) (List.replicate 80 0)
    (by simp) (by simp)

/-- C4: whenever the guard `n > 0` holds, the index `n - 1` of
`l2_symbolic_no_overrun_Good` satisfies `0 ≤ n - 1 < n`, so the store is in
bounds (and the function performs only in-bounds stores for every `n`);
without the guard, `may_underrun_symbolic_Nowarn_Good` is out of bounds at
`n = 0`. -/
theorem l2_symbolic_guard_in_bounds (n : Int) (h : 0 < n) :
    (0 ≤ n - 1 ∧ n - 1 < n ∧ l2_symbolic_no_overrun_Good n = true) ∧
    (∀ m : Int, l2_symbolic_no_overrun_Good m = true) ∧
    may_underrun_symbolic_Nowarn_Good 0 = false := by
  refine ⟨⟨by omega, by omega, ?_⟩, fun m => ?_, by decide⟩
  · simp only [l2_symbolic_no_overrun_Good, if_pos h, storeOK,
      Bool.and_eq_true, decide_eq_true_eq]
    omega
  · by_cases hm : 0 < m
    · simp only [l2_symbolic_no_overrun_Good, if_pos hm, storeOK,
        Bool.and_eq_true, decide_eq_true_eq]
      omega
    · simp [l2_symbolic_no_overrun_Good, hm]

/-- Witness for C4 at `n = 1`. -/
theorem l2_symbolic_guard_in_bounds_witness :
    ((0 : Int) ≤ 1 - 1 ∧ (1 : Int) - 1 < 1 ∧
      l2_symbolic_no_overrun_Good 1 = true) ∧
    (∀ m : Int, l2_symbolic_no_overrun_Good m = true) ∧
    may_underrun_symbolic_Nowarn_Good 0 = false :=
  l2_symbolic_guard_in_bounds 1 (by decide)

/-- C5: a bulk copy or fill of length exactly 0 touches no byte offset of
either buffer and returns the destination unchanged: the length-0 calls of
`memcpy_good2` and `memset_good2` are safe and leave every element of the
destination as it was, whatever the buffer contents. -/
theorem bulk_zero_length_safe (arr1 arr2 arr : List Int) :
    memcpy_good2 arr1 arr2 = some arr2 ∧
    memset_good2 arr = some arr ∧
    bulkOffsets 0 = [] := by
  refine ⟨?_, ?_, rfl⟩
  · simp [memcpy_good2, memcpy]
  · simp [memset_good2, memset]

/-- C6: `zero_or_ten` returns 10 on every nonzero argument and 0 on 0;
hence the `malloc` size `zero_or_ten(0) - 5` of `alloc_may_be_negative_Bad`
equals exactly -5, which is negative (the non-positive size is certain). -/
theorem zero_or_ten_spec_and_alloc_size :
    (∀ t : Int, (t ≠ 0 → zero_or_ten t = 10) ∧ (t = 0 → zero_or_ten t = 0)) ∧
    alloc_may_be_negative_Bad_size = -5 ∧
    alloc_may_be_negative_Bad_size < 0 := by
  refine ⟨fun t => ⟨fun ht => ?_, fun ht => ?_⟩, by decide, by decide⟩
  · simp [zero_or_ten, ht]
  · simp [zero_or_ten, ht]

/-- C7: `zero_to_infty` terminates (it is a total function here) and returns
exactly 0: its loop bound `zero_or_ten(0)` is 0, so the body never runs. -/
theorem zero_to_infty_eq_zero : zero_to_infty = 0 ∧ zero_or_ten 0 = 0 := by
  have hb : zero_or_ten 0 = 0 := by simp [zero_or_ten]
  refine ⟨?_, hb⟩
  show countUpFrom 0 (zero_or_ten 0) 0 = 0
  rw [hb, countUpFrom]
  norm_num

/-- C8: the expression `2 * 1000 * 1000 * 1000` of `alloc_is_big_Bad`,
evaluated step by step in signed 32-bit arithmetic, equals 2000000000 — the
same value as in unbounded arithmetic — and 2000000000 < 2^31, so no step
wraps. -/
theorem alloc_is_big_size_exact :
    alloc_is_big_Bad_size = 2000000000 ∧
    alloc_is_big_Bad_size = 2 * 1000 * 1000 * 1000 ∧
    (2000000000 : Int) < 2 ^ 31 := by
  decide

/-- C9: for unsigned `i` and unsigned `len > 0`, `i % len` is below `len`
(non-negativity is inherent to unsigned values), so the stores of
`modulo_unsigned_Good` (`char arr[5]`) and `modulo_unsigned_var_Good`
(`char arr[len]`) are in bounds for every input. -/
theorem modulo_unsigned_in_bounds (len i : Nat) (h : 0 < len) :
    modulo_unsigned i len < len ∧ 0 ≤ ((modulo_unsigned i len : Nat) : Int) ∧
    modulo_unsigned_Good i = true ∧
    modulo_unsigned_var_Good len i = true := by
  refine ⟨Nat.mod_lt _ h, by positivity, ?_, ?_⟩
  · have h5 : i % 5 < 5 := Nat.mod_lt _ (by norm_num)
    simp only [modulo_unsigned_Good, storeOK, Bool.and_eq_true,
      decide_eq_true_eq]
    omega
  · have hl : i % len < len := Nat.mod_lt _ h
    simp only [modulo_unsigned_var_Good, storeOK, Bool.and_eq_true,
      decide_eq_true_eq]
    omega

/-- Witness for C9 at `len = 5`, `i = 7`. -/
theorem modulo_unsigned_in_bounds_witness :
    modulo_unsigned 7 5 < 5 ∧ 0 ≤ ((modulo_unsigned 7 5 : Nat) : Int) ∧
    modulo_unsigned_Good 7 = true ∧
    modulo_unsigned_var_Good 5 7 = true :=
  modulo_unsigned_in_bounds 5 7 (by decide)

/-- C10: `plus_linear_min` returns `2 * i + 1` when `0 ≤ i < 10` and 0
otherwise; in particular `plus_linear_min 9 = 19`, so the write `a[19]` is in
bounds for `int a[20]` (`plus_linear_min_Good`) and out of bounds for
`int a[19]` (`plus_linear_min_Bad`). -/
theorem plus_linear_min_spec (i : Int) :
    (0 ≤ i ∧ i < 10 → plus_linear_min i = 2 * i + 1) ∧
    (¬(0 ≤ i ∧ i < 10) → plus_linear_min i = 0) ∧
    plus_linear_min 9 = 19 ∧
    plus_linear_min_Good = true ∧
    plus_linear_min_Bad = false := by
  refine ⟨fun h => ?_, fun h => ?_, by decide, by decide, by decide⟩
  · simp only [plus_linear_min, if_pos h]
    ring
  · simp only [plus_linear_min, if_neg h]

end BufferOverrun
